import Mathlib

/-!
# Verification of the cartography GCP-storage / Okta synchronization connectors

A shallow embedding of `cartography/intel/gcp/storage.py` and
`cartography/intel/okta/__init__.py`.

Conventions of the embedding:
* The Neo4j graph touched by `load_gcp_buckets` is modelled as three keyed
  maps (`GCPProject` nodes keyed by `projectnumber`, `GCPBucket` nodes keyed
  by `id`, `RESOURCE` relationships keyed by the (project, bucket) key pair):
  Cypher `MERGE` on a key pattern matches at most one entity per key, so a
  keyed map is the faithful state space.
* Neo4j's `timestamp()` is modelled by an explicit clock argument `now`
  supplied to each invocation of the loader.
* An `HttpError` whose classified reason (via `compute._get_error_reason`,
  outside this repository's sources) is the string `reason` is modelled by
  the input `Fetch.err reason`; raising is modelled with `Except`.
* Python dictionaries returned by the GCP API are modelled by structures
  whose optional keys are `Option` fields; `d.get(k, default)` becomes
  `Option.getD`.
-/

/-- One raw GCP bucket item of the `buckets().list` response: the keys read
by `transform_gcp_buckets`.  `id` and `projectNumber` are accessed with
`b['...']` in the source (required); every other key is read with `.get` and
is optional. -/
structure RawBucket where
  etag : Option String
  iamConfiguration : Option (Option (Option Bool))
  id : String
  labels : Option (List (String × String))
  owner : Option (Option String × Option String)
  kind : Option String
  location : Option String
  locationType : Option String
  metageneration : Option String
  projectNumber : String
  selfLink : Option String
  storageClass : Option String
  timeCreated : Option String
  updated : Option String
  versioning : Option (Option Bool)
  defaultEventBasedHold : Option Bool
  retentionPolicy : Option (Option String)
  encryption : Option (Option String)
  logging : Option (Option String)
  billing : Option (Option Bool)
deriving DecidableEq

/-- The response object of `storage.buckets().list`: `get_gcp_buckets`
returns either the raw response (which carries an optional `items` key) or
the empty dict `{}` (no `items` key at all, hence `items := none`). -/
structure StorageRes where
  items : Option (List RawBucket)
deriving DecidableEq

/-- One transformed bucket record, exactly the keys that
`transform_gcp_buckets` writes into each output dict. -/
structure BucketRecord where
  etag : Option String
  iam_config_bucket_policy_only : Option Bool
  id : String
  labels : List (String × String)
  owner_entity : Option String
  owner_entity_id : Option String
  kind : Option String
  location : Option String
  location_type : Option String
  meta_generation : Option String
  project_number : String
  self_link : Option String
  storage_class : Option String
  time_created : Option String
  updated : Option String
  versioning_enabled : Option Bool
  default_event_based_hold : Option Bool
  retention_period : Option String
  default_kms_key_name : Option String
  log_bucket : Option String
  requester_pays : Option Bool
deriving DecidableEq

/-- The per-item body of the loop in `transform_gcp_buckets`
(`storage.py` lines 112-135).  Chained `.get('x', {}).get('y', default)`
reads become `Option.getD`/`Option.bind` chains:
`b.get('iamConfiguration', {}).get('bucketPolicyOnly', {}).get('enabled', None)`
is the doubly nested optional `iamConfiguration`, and so on. -/
def transformBucketItem (b : RawBucket) : BucketRecord where
  etag := b.etag
  iam_config_bucket_policy_only := (b.iamConfiguration.getD none).getD none
  id := b.id
  labels := b.labels.getD []
  owner_entity := (b.owner.getD (none, none)).1
  owner_entity_id := (b.owner.getD (none, none)).2
  kind := b.kind
  location := b.location
  location_type := b.locationType
  meta_generation := b.metageneration
  project_number := b.projectNumber
  self_link := b.selfLink
  storage_class := b.storageClass
  time_created := b.timeCreated
  updated := b.updated
  versioning_enabled := b.versioning.getD none
  default_event_based_hold := b.defaultEventBasedHold
  retention_period := b.retentionPolicy.getD none
  default_kms_key_name := b.encryption.getD none
  log_bucket := b.logging.getD none
  requester_pays := b.billing.getD none

/-- `transform_gcp_buckets` (`storage.py` lines 99-136): iterate over
`bucket_res.get('items', [])`, appending one transformed record per item. -/
def transform_gcp_buckets (bucket_res : StorageRes) : List BucketRecord :=
  (bucket_res.items.getD []).map transformBucketItem

/-- A `GCPProject` node: the properties written by the load query. -/
structure ProjNode where
  firstseen : Nat
  lastupdated : Nat
deriving DecidableEq

/-- A `GCPBucket` node: the properties written by the load query
(`firstseen` and `bucket_id` only in its `ON CREATE SET` clause). -/
structure BucketNode where
  firstseen : Nat
  bucket_id : String
  self_link : Option String
  project_number : String
  kind : Option String
  location : Option String
  location_type : Option String
  labels : List (String × String)
  meta_generation : Option String
  storage_class : Option String
  time_created : Option String
  retention_period : Option String
  iam_config_bucket_policy_only : Option Bool
  owner_entity : Option String
  owner_entity_id : Option String
  lastupdated : Nat
  versioning_enabled : Option Bool
  log_bucket : Option String
  requester_pays : Option Bool
  default_kms_key_name : Option String
deriving DecidableEq

/-- A `RESOURCE` relationship's properties. -/
structure EdgeRel where
  firstseen : Nat
  lastupdated : Nat
deriving DecidableEq

/-- The graph state: `GCPProject` nodes keyed by `projectnumber`,
`GCPBucket` nodes keyed by `id`, and `RESOURCE` relationships keyed by the
(project key, bucket key) pair. -/
structure Graph where
  projects : String → Option ProjNode
  buckets : String → Option BucketNode
  edges : String × String → Option EdgeRel

def Graph.empty : Graph where
  projects := fun _ => none
  buckets := fun _ => none
  edges := fun _ => none

/-- The `SET` clause of the bucket `MERGE` (`storage.py` lines 164-181):
overwrites every listed property and `lastupdated`; `firstseen` and
`bucket_id` appear only under `ON CREATE SET` and are kept. -/
def setBucketFields (r : BucketRecord) (tag : Nat) (n : BucketNode) : BucketNode :=
  { n with
    self_link := r.self_link
    project_number := r.project_number
    kind := r.kind
    location := r.location
    location_type := r.location_type
    labels := r.labels
    meta_generation := r.meta_generation
    storage_class := r.storage_class
    time_created := r.time_created
    retention_period := r.retention_period
    iam_config_bucket_policy_only := r.iam_config_bucket_policy_only
    owner_entity := r.owner_entity
    owner_entity_id := r.owner_entity_id
    lastupdated := tag
    versioning_enabled := r.versioning_enabled
    log_bucket := r.log_bucket
    requester_pays := r.requester_pays
    default_kms_key_name := r.default_kms_key_name }

/-- The node a bucket `MERGE` creates before its `SET` clause runs:
`ON CREATE SET bucket.firstseen = timestamp(), bucket.bucket_id = {BucketId}`.
Every other field is immediately overwritten by `setBucketFields`. -/
def initBucket (id : String) (now : Nat) : BucketNode where
  firstseen := now
  bucket_id := id
  self_link := none
  project_number := ""
  kind := none
  location := none
  location_type := none
  labels := []
  meta_generation := none
  storage_class := none
  time_created := none
  retention_period := none
  iam_config_bucket_policy_only := none
  owner_entity := none
  owner_entity_id := none
  lastupdated := 0
  versioning_enabled := none
  log_bucket := none
  requester_pays := none
  default_kms_key_name := none

/-- One execution of the Cypher query of `load_gcp_buckets`
(`storage.py` lines 156-186) for one record `r`:
`MERGE` the `GCPProject` by `projectnumber` (`ON CREATE SET firstseen`,
then `SET lastupdated = tag`), `MERGE` the `GCPBucket` by `id`
(`ON CREATE SET firstseen, bucket_id`, then the `SET` clause), and `MERGE`
the `RESOURCE` relationship between them (`ON CREATE SET firstseen`, then
`SET lastupdated = tag`). -/
def mergeRecord (tag now : Nat) (g : Graph) (r : BucketRecord) : Graph where
  projects := fun k =>
    if k = r.project_number then
      some { firstseen := ((g.projects r.project_number).getD
               { firstseen := now, lastupdated := tag }).firstseen
             lastupdated := tag }
    else g.projects k
  buckets := fun k =>
    if k = r.id then
      some (setBucketFields r tag ((g.buckets r.id).getD (initBucket r.id now)))
    else g.buckets k
  edges := fun k =>
    if k = (r.project_number, r.id) then
      some { firstseen := ((g.edges (r.project_number, r.id)).getD
               { firstseen := now, lastupdated := tag }).firstseen
             lastupdated := tag }
    else g.edges k

/-- `load_gcp_buckets` (`storage.py` lines 139-209): run the merge query
once per record, in list order, against the session's graph state. -/
def load_gcp_buckets (buckets : List BucketRecord) (gcp_update_tag : Nat)
    (now : Nat) (g : Graph) : Graph :=
  buckets.foldl (mergeRecord gcp_update_tag now) g

theorem setBucketFields_setBucketFields (x r : BucketRecord) (t t' : Nat)
    (n : BucketNode) :
    setBucketFields x t (setBucketFields r t' n) = setBucketFields x t n := rfl

@[simp] theorem setBucketFields_firstseen (r : BucketRecord) (t : Nat)
    (n : BucketNode) : (setBucketFields r t n).firstseen = n.firstseen := rfl

@[simp] theorem setBucketFields_lastupdated (r : BucketRecord) (t : Nat)
    (n : BucketNode) : (setBucketFields r t n).lastupdated = t := rfl

theorem Graph.ext_pointwise {g1 g2 : Graph}
    (hp : ∀ k, g1.projects k = g2.projects k)
    (hb : ∀ k, g1.buckets k = g2.buckets k)
    (he : ∀ k, g1.edges k = g2.edges k) : g1 = g2 := by
  cases g1
  cases g2
  rw [Graph.mk.injEq]
  exact ⟨funext hp, funext hb, funext he⟩

/-- The last element of a list satisfying `p` (the record whose write wins
when several records of one load call share a merge key). -/
def lastWith (p : BucketRecord → Prop) [DecidablePred p] :
    List BucketRecord → Option BucketRecord
  | [] => none
  | r :: rest =>
    match lastWith p rest with
    | some x => some x
    | none => if p r then some r else none

@[simp] theorem lastWith_nil (p : BucketRecord → Prop) [DecidablePred p] :
    lastWith p [] = none := rfl

theorem load_gcp_buckets_nil (tag now : Nat) (g : Graph) :
    load_gcp_buckets [] tag now g = g := rfl

theorem load_gcp_buckets_cons (r : BucketRecord) (rest : List BucketRecord)
    (tag now : Nat) (g : Graph) :
    load_gcp_buckets (r :: rest) tag now g =
      load_gcp_buckets rest tag now (mergeRecord tag now g r) := rfl

theorem mergeRecord_buckets (tag now : Nat) (g : Graph) (r : BucketRecord)
    (k : String) :
    (mergeRecord tag now g r).buckets k =
      if k = r.id then
        some (setBucketFields r tag ((g.buckets r.id).getD (initBucket r.id now)))
      else g.buckets k := rfl

theorem mergeRecord_projects (tag now : Nat) (g : Graph) (r : BucketRecord)
    (k : String) :
    (mergeRecord tag now g r).projects k =
      if k = r.project_number then
        some { firstseen := ((g.projects r.project_number).getD
                 { firstseen := now, lastupdated := tag }).firstseen
               lastupdated := tag }
      else g.projects k := rfl

theorem mergeRecord_edges (tag now : Nat) (g : Graph) (r : BucketRecord)
    (k : String × String) :
    (mergeRecord tag now g r).edges k =
      if k = (r.project_number, r.id) then
        some { firstseen := ((g.edges (r.project_number, r.id)).getD
                 { firstseen := now, lastupdated := tag }).firstseen
               lastupdated := tag }
      else g.edges k := rfl

/-- What one load call leaves at bucket key `k`: untouched when no record
has id `k`, otherwise the fields of the last such record over the previous
entry (or over a freshly created node when the key was absent). -/
theorem load_buckets_char (tag now : Nat) (bs : List BucketRecord) :
    ∀ (g : Graph) (k : String),
      (load_gcp_buckets bs tag now g).buckets k =
        match lastWith (fun r => r.id = k) bs with
        | none => g.buckets k
        | some r => some (setBucketFields r tag ((g.buckets k).getD (initBucket k now))) := by
  induction bs with
  | nil => intro g k; rfl
  | cons r rest ih =>
    intro g k
    rw [load_gcp_buckets_cons, ih (mergeRecord tag now g r) k]
    by_cases hik : r.id = k
    · subst hik
      cases hlw : lastWith (fun x => x.id = r.id) rest with
      | some x =>
        simp [lastWith, hlw, mergeRecord_buckets, setBucketFields_setBucketFields]
      | none =>
        simp [lastWith, hlw, mergeRecord_buckets]
    · have hk : ¬(k = r.id) := fun h => hik h.symm
      cases hlw : lastWith (fun x => x.id = k) rest with
      | some x =>
        simp only [lastWith, hlw, mergeRecord_buckets, if_neg hk]
      | none =>
        simp only [lastWith, hlw, if_neg hik, mergeRecord_buckets, if_neg hk]

/-- What one load call leaves at project key `k`. -/
theorem load_projects_char (tag now : Nat) (bs : List BucketRecord) :
    ∀ (g : Graph) (k : String),
      (load_gcp_buckets bs tag now g).projects k =
        match lastWith (fun r => r.project_number = k) bs with
        | none => g.projects k
        | some _ => some { firstseen := ((g.projects k).getD
                             { firstseen := now, lastupdated := tag }).firstseen
                           lastupdated := tag } := by
  induction bs with
  | nil => intro g k; rfl
  | cons r rest ih =>
    intro g k
    rw [load_gcp_buckets_cons, ih (mergeRecord tag now g r) k]
    by_cases hik : r.project_number = k
    · subst hik
      cases hlw : lastWith (fun x => x.project_number = r.project_number) rest with
      | some x =>
        simp [lastWith, hlw, mergeRecord_projects]
      | none =>
        simp [lastWith, hlw, mergeRecord_projects]
    · have hk : ¬(k = r.project_number) := fun h => hik h.symm
      cases hlw : lastWith (fun x => x.project_number = k) rest with
      | some x =>
        simp only [lastWith, hlw, mergeRecord_projects, if_neg hk]
      | none =>
        simp only [lastWith, hlw, if_neg hik, mergeRecord_projects, if_neg hk]

/-- What one load call leaves at relationship key `k`. -/
theorem load_edges_char (tag now : Nat) (bs : List BucketRecord) :
    ∀ (g : Graph) (k : String × String),
      (load_gcp_buckets bs tag now g).edges k =
        match lastWith (fun r => (r.project_number, r.id) = k) bs with
        | none => g.edges k
        | some _ => some { firstseen := ((g.edges k).getD
                             { firstseen := now, lastupdated := tag }).firstseen
                           lastupdated := tag } := by
  induction bs with
  | nil => intro g k; rfl
  | cons r rest ih =>
    intro g k
    rw [load_gcp_buckets_cons, ih (mergeRecord tag now g r) k]
    by_cases hik : (r.project_number, r.id) = k
    · subst hik
      cases hlw : lastWith (fun x => (x.project_number, x.id) = (r.project_number, r.id)) rest with
      | some x =>
        simp only [lastWith, hlw, mergeRecord_edges, if_true, Option.getD_some]
      | none =>
        simp only [lastWith, hlw, mergeRecord_edges, if_true]
    · have hk : ¬(k = (r.project_number, r.id)) := fun h => hik h.symm
      cases hlw : lastWith (fun x => (x.project_number, x.id) = k) rest with
      | some x =>
        simp only [lastWith, hlw, mergeRecord_edges, if_neg hk]
      | none =>
        simp only [lastWith, hlw, if_neg hik, mergeRecord_edges, if_neg hk]

/-- **C1** Idempotence of the Graph Loader: for every list of bucket records
and every sync tag, a second invocation of `load_gcp_buckets` with the same
records and the same tag (at any later clock value) leaves the graph exactly
equal to the state after the first invocation — in the keyed-map model no
duplicate `GCPProject`/`GCPBucket` nodes or `RESOURCE` edges can arise and
`firstseen` of every entry is unchanged; moreover after the first invocation
every touched node and edge carries `lastupdated = tag`. -/
theorem load_gcp_buckets_idempotent (bs : List BucketRecord) (tag t1 t2 : Nat)
    (g : Graph) :
    load_gcp_buckets bs tag t2 (load_gcp_buckets bs tag t1 g) =
      load_gcp_buckets bs tag t1 g ∧
    (∀ k, (load_gcp_buckets bs tag t1 g).buckets k = g.buckets k ∨
      ∃ n, (load_gcp_buckets bs tag t1 g).buckets k = some n ∧ n.lastupdated = tag) ∧
    (∀ k, (load_gcp_buckets bs tag t1 g).projects k = g.projects k ∨
      ∃ p, (load_gcp_buckets bs tag t1 g).projects k = some p ∧ p.lastupdated = tag) ∧
    (∀ k, (load_gcp_buckets bs tag t1 g).edges k = g.edges k ∨
      ∃ e, (load_gcp_buckets bs tag t1 g).edges k = some e ∧ e.lastupdated = tag) := by
  refine ⟨Graph.ext_pointwise ?_ ?_ ?_, ?_, ?_, ?_⟩
  · intro k
    rw [load_projects_char tag t2, load_projects_char tag t1]
    cases hlw : lastWith (fun r => r.project_number = k) bs <;>
      simp [hlw]
  · intro k
    rw [load_buckets_char tag t2, load_buckets_char tag t1]
    cases hlw : lastWith (fun r => r.id = k) bs <;>
      simp [hlw, setBucketFields_setBucketFields]
  · intro k
    rw [load_edges_char tag t2, load_edges_char tag t1]
    cases hlw : lastWith (fun r => (r.project_number, r.id) = k) bs <;>
      simp [hlw]
  · intro k
    rw [load_buckets_char tag t1]
    cases hlw : lastWith (fun r => r.id = k) bs with
    | none => exact Or.inl rfl
    | some r => exact Or.inr ⟨_, rfl, rfl⟩
  · intro k
    rw [load_projects_char tag t1]
    cases hlw : lastWith (fun r => r.project_number = k) bs with
    | none => exact Or.inl rfl
    | some r => exact Or.inr ⟨_, rfl, rfl⟩
  · intro k
    rw [load_edges_char tag t1]
    cases hlw : lastWith (fun r => (r.project_number, r.id) = k) bs with
    | none => exact Or.inl rfl
    | some r => exact Or.inr ⟨_, rfl, rfl⟩

/-- **C2** `firstseen` immutability and in-place update: when the
`GCPProject` node, the `GCPBucket` node and the `RESOURCE` edge for a
record's keys already exist, loading that record with any new tag rewrites
the node's mutable fields and `lastupdated` to the new tag, keeps
`firstseen` (and the creation-only `bucket_id`) of node and edge untouched
even though a fresh clock value `now` is available, and leaves every other
bucket key of the graph unchanged. -/
theorem load_gcp_buckets_updates_in_place (r : BucketRecord) (tag now : Nat)
    (g : Graph) (p0 : ProjNode) (b0 : BucketNode) (e0 : EdgeRel)
    (hp : g.projects r.project_number = some p0)
    (hb : g.buckets r.id = some b0)
    (he : g.edges (r.project_number, r.id) = some e0) :
    (load_gcp_buckets [r] tag now g).buckets r.id =
      some { firstseen := b0.firstseen
             bucket_id := b0.bucket_id
             self_link := r.self_link
             project_number := r.project_number
             kind := r.kind
             location := r.location
             location_type := r.location_type
             labels := r.labels
             meta_generation := r.meta_generation
             storage_class := r.storage_class
             time_created := r.time_created
             retention_period := r.retention_period
             iam_config_bucket_policy_only := r.iam_config_bucket_policy_only
             owner_entity := r.owner_entity
             owner_entity_id := r.owner_entity_id
             lastupdated := tag
             versioning_enabled := r.versioning_enabled
             log_bucket := r.log_bucket
             requester_pays := r.requester_pays
             default_kms_key_name := r.default_kms_key_name } ∧
    (load_gcp_buckets [r] tag now g).projects r.project_number =
      some { firstseen := p0.firstseen, lastupdated := tag } ∧
    (load_gcp_buckets [r] tag now g).edges (r.project_number, r.id) =
      some { firstseen := e0.firstseen, lastupdated := tag } ∧
    (∀ k, k ≠ r.id → (load_gcp_buckets [r] tag now g).buckets k = g.buckets k) := by
  refine ⟨?_, ?_, ?_, ?_⟩
  · rw [show load_gcp_buckets [r] tag now g = mergeRecord tag now g r from rfl,
      mergeRecord_buckets, if_pos rfl, hb]
    rfl
  · rw [show load_gcp_buckets [r] tag now g = mergeRecord tag now g r from rfl,
      mergeRecord_projects, if_pos rfl, hp]
    rfl
  · rw [show load_gcp_buckets [r] tag now g = mergeRecord tag now g r from rfl,
      mergeRecord_edges, if_pos rfl, he]
    rfl
  · intro k hk
    rw [show load_gcp_buckets [r] tag now g = mergeRecord tag now g r from rfl,
      mergeRecord_buckets, if_neg hk]

/-- A concrete transformed record used to instantiate hypotheses. -/
def rEx : BucketRecord where
  etag := some "etag1"
  iam_config_bucket_policy_only := some true
  id := "b1"
  labels := [("env", "prod")]
  owner_entity := some "owner"
  owner_entity_id := some "oid"
  kind := some "storage#bucket"
  location := some "US"
  location_type := some "multi-region"
  meta_generation := some "3"
  project_number := "p1"
  self_link := some "https://link/b1"
  storage_class := some "STANDARD"
  time_created := some "2020-01-01"
  updated := some "2020-02-01"
  versioning_enabled := some false
  default_event_based_hold := some false
  retention_period := none
  default_kms_key_name := none
  log_bucket := none
  requester_pays := some false

/-- A concrete pre-existing `GCPBucket` node. -/
def b0Ex : BucketNode where
  firstseen := 10
  bucket_id := "b1"
  self_link := none
  project_number := "p1"
  kind := none
  location := none
  location_type := none
  labels := []
  meta_generation := none
  storage_class := none
  time_created := none
  retention_period := none
  iam_config_bucket_policy_only := none
  owner_entity := none
  owner_entity_id := none
  lastupdated := 100
  versioning_enabled := none
  log_bucket := none
  requester_pays := none
  default_kms_key_name := none

def p0Ex : ProjNode := { firstseen := 10, lastupdated := 100 }

def e0Ex : EdgeRel := { firstseen := 10, lastupdated := 100 }

/-- A concrete graph already holding the project `p1`, the bucket `b1` and
their `RESOURCE` edge. -/
def gEx : Graph where
  projects := fun k => if k = "p1" then some p0Ex else none
  buckets := fun k => if k = "b1" then some b0Ex else none
  edges := fun k => if k = ("p1", "b1") then some e0Ex else none

/-- Witness for C2 at a concrete pre-populated graph, record, new tag `200`
and clock `999`. -/
theorem load_gcp_buckets_updates_in_place_witness :
    (load_gcp_buckets [rEx] 200 999 gEx).buckets rEx.id =
      some { firstseen := b0Ex.firstseen
             bucket_id := b0Ex.bucket_id
             self_link := rEx.self_link
             project_number := rEx.project_number
             kind := rEx.kind
             location := rEx.location
             location_type := rEx.location_type
             labels := rEx.labels
             meta_generation := rEx.meta_generation
             storage_class := rEx.storage_class
             time_created := rEx.time_created
             retention_period := rEx.retention_period
             iam_config_bucket_policy_only := rEx.iam_config_bucket_policy_only
             owner_entity := rEx.owner_entity
             owner_entity_id := rEx.owner_entity_id
             lastupdated := 200
             versioning_enabled := rEx.versioning_enabled
             log_bucket := rEx.log_bucket
             requester_pays := rEx.requester_pays
             default_kms_key_name := rEx.default_kms_key_name } ∧
    (load_gcp_buckets [rEx] 200 999 gEx).projects rEx.project_number =
      some { firstseen := p0Ex.firstseen, lastupdated := 200 } ∧
    (load_gcp_buckets [rEx] 200 999 gEx).edges (rEx.project_number, rEx.id) =
      some { firstseen := e0Ex.firstseen, lastupdated := 200 } := by
  have h := load_gcp_buckets_updates_in_place rEx 200 999 gEx p0Ex b0Ex e0Ex
    (by decide) (by decide) (by decide)
  exact ⟨h.1, h.2.1, h.2.2.1⟩

/-- The outcome of one call against the external API: either the decoded
response object, or an `HttpError` carrying its classified reason (the
string `compute._get_error_reason` extracts from the error payload). -/
inductive Fetch (α : Type) where
  | ok (res : α)
  | err (reason : String)
deriving DecidableEq

/-- `get_gcp_buckets` (`storage.py` lines 59-96): return the response;
on `HttpError` classified `invalid` or `forbidden`, log and return the
empty dict `{}`; any other classification re-raises. -/
def get_gcp_buckets (storage : Fetch StorageRes) (_project_id : String) :
    Except String StorageRes :=
  match storage with
  | .ok res => .ok res
  | .err reason =>
    if reason = "invalid" then .ok { items := none }
    else if reason = "forbidden" then .ok { items := none }
    else .error reason

/-- The IAM policy object of `storage.buckets().getIamPolicy`: its
`resourceId` (of the form `projects/_/buckets/bucket_id`) and bindings. -/
structure IamPolicyRes where
  resourceId : String
  bindings : List (String × List String)
deriving DecidableEq

/-- `get_gcp_bucket_iam_policy` (`storage.py` lines 9-39): return the
policy; on `HttpError` classified `notFound` or `forbidden`, log and return
`None`; any other classification re-raises. -/
def get_gcp_bucket_iam_policy (storage : Fetch IamPolicyRes) (_bucket : String) :
    Except String (Option IamPolicyRes) :=
  match storage with
  | .ok res => .ok (some res)
  | .err reason =>
    if reason = "notFound" then .ok none
    else if reason = "forbidden" then .ok none
    else .error reason

/-- The record type `transform_gcp_bucket_iam_policy` is documented to
produce ("list of roles and members corresponding to some storage
bucket"); the function never actually builds one. -/
structure IamPolicyRecord where
  bucket_id : String
  role : String
  members : List String
deriving DecidableEq

/-- `transform_gcp_bucket_iam_policy` (`storage.py` lines 42-55): the body
initialises `iam_list = []`, reads `resourceId` and slices the bucket id
off it, and then ends — there is no `return` statement, so the Python
function falls off the end and returns `None` for every input, never the
documented list of role/member records. -/
def transform_gcp_bucket_iam_policy (iam_res : IamPolicyRes) :
    Option (List IamPolicyRecord) :=
  let _iam_list : List IamPolicyRecord := []
  let resource_id := iam_res.resourceId
  let _bucket_id := (resource_id.splitOn "/").getLastD ""
  none

/-- The `common_job_parameters` mapping threaded into cleanup jobs (only
the key the synchronization contract constrains is modelled). -/
structure CommonJobParameters where
  UPDATE_TAG : Nat
deriving DecidableEq

/-- One invocation of `run_cleanup_job`: the job definition's name and the
scoping parameters it is handed. -/
structure CleanupCall where
  jobName : String
  params : CommonJobParameters
deriving DecidableEq

/-- `cleanup_gcp_buckets` (`storage.py` lines 212-225): run the
`gcp_storage_bucket_cleanup.json` job with the given parameters. -/
def cleanup_gcp_buckets (common_job_parameters : CommonJobParameters) : CleanupCall :=
  { jobName := "gcp_storage_bucket_cleanup.json", params := common_job_parameters }

/-- `sync_gcp_buckets` (`storage.py` lines 228-253): fetch, transform,
load, then clean up.  The result is the graph state after the load step
together with the cleanup invocation; a re-raised fetch error aborts the
run before any write. -/
def sync_gcp_buckets (storage : Fetch StorageRes) (project_id : String)
    (gcp_update_tag now : Nat) (common_job_parameters : CommonJobParameters)
    (g : Graph) : Except String (Graph × CleanupCall) :=
  match get_gcp_buckets storage project_id with
  | .error e => .error e
  | .ok storage_res =>
    let bucket_list := transform_gcp_buckets storage_res
    let g2 := load_gcp_buckets bucket_list gcp_update_tag now g
    .ok (g2, cleanup_gcp_buckets common_job_parameters)

/-- The fields of the `cartography.config` object read by
`start_okta_ingestion`. -/
structure OktaConfig where
  okta_api_key : Option String
  okta_org_id : String
  okta_saml_role_regex : String
  update_tag : Nat
deriving DecidableEq

/-- Python's `not config.okta_api_key`: the key is absent (`None`) or the
empty string. -/
def oktaApiKeyMissing (config : OktaConfig) : Bool :=
  match config.okta_api_key with
  | none => true
  | some s => s.isEmpty

/-- One stage invocation of the Okta run, with the arguments the
orchestrator hands it (`okta/__init__.py` lines 52-58, 65, 73).  The stage
implementations live in other modules; only the invocations and their tag
arguments are modelled. -/
inductive OktaEvent where
  | createOrganization (orgId : String) (tag : Nat)
  | syncUsers (orgId : String) (tag : Nat)
  | syncGroups (orgId : String) (tag : Nat)
  | syncApplications (orgId : String) (tag : Nat)
  | syncFactors (orgId : String) (tag : Nat)
  | syncTrustedOrigins (orgId : String) (tag : Nat)
  | syncAwsSaml (samlRegex : String) (tag : Nat)
  | syncRoles (orgId : String) (tag : Nat)
  | cleanupOrganizations (jobName : String) (updateTag : Nat) (orgId : String)
deriving DecidableEq

/-- The sync-tag argument an invocation carries (`UPDATE_TAG` for the
cleanup job). -/
def eventTag : OktaEvent → Nat
  | .createOrganization _ t => t
  | .syncUsers _ t => t
  | .syncGroups _ t => t
  | .syncApplications _ t => t
  | .syncFactors _ t => t
  | .syncTrustedOrigins _ t => t
  | .syncAwsSaml _ t => t
  | .syncRoles _ t => t
  | .cleanupOrganizations _ t _ => t

def isCleanup : OktaEvent → Bool
  | .cleanupOrganizations _ _ _ => true
  | _ => false

/-- How one stage call ends: normally, raising an `OktaError` whose
`error_code` is the given string, or raising some other exception. -/
inductive StageOutcome where
  | success
  | oktaError (error_code : String)
  | fatalError
deriving DecidableEq

/-- One outcome per stage call of `start_okta_ingestion`, in program
order. -/
structure StageOutcomes where
  organization : StageOutcome
  users : StageOutcome
  groups : StageOutcome
  applications : StageOutcome
  factors : StageOutcome
  origins : StageOutcome
  awssaml : StageOutcome
  roles : StageOutcome
deriving DecidableEq

/-- How the whole run ends when a stage raises: an `OktaError` escaping a
stage with no handler, or any other exception. -/
inductive RunError where
  | uncaught (error_code : String)
  | fatal
deriving DecidableEq

/-- Run a sequence of stage invocations with no exception handler around
them: each stage is invoked in order and any raise aborts the rest. -/
def runStagesFrom : List (OktaEvent × StageOutcome) → List OktaEvent × Option RunError
  | [] => ([], none)
  | (ev, o) :: rest =>
    match o with
    | .success => (ev :: (runStagesFrom rest).1, (runStagesFrom rest).2)
    | .oktaError c => ([ev], some (RunError.uncaught c))
    | .fatalError => ([ev], some RunError.fatal)

/-- The seven unguarded stage calls of `start_okta_ingestion`
(`okta/__init__.py` lines 52-58), with the arguments taken from `config`. -/
def preStages (config : OktaConfig) (out : StageOutcomes) :
    List (OktaEvent × StageOutcome) :=
  [ (OktaEvent.createOrganization config.okta_org_id config.update_tag, out.organization),
    (OktaEvent.syncUsers config.okta_org_id config.update_tag, out.users),
    (OktaEvent.syncGroups config.okta_org_id config.update_tag, out.groups),
    (OktaEvent.syncApplications config.okta_org_id config.update_tag, out.applications),
    (OktaEvent.syncFactors config.okta_org_id config.update_tag, out.factors),
    (OktaEvent.syncTrustedOrigins config.okta_org_id config.update_tag, out.origins),
    (OktaEvent.syncAwsSaml config.okta_saml_role_regex config.update_tag, out.awssaml) ]

/-- `start_okta_ingestion` (`okta/__init__.py` lines 30-73).  Without a
usable `okta_api_key` the function logs and returns at once.  Otherwise the
seven unguarded stages run in order (any raise aborts the run); then
`roles.sync_roles` runs inside `try/except OktaError` — an `OktaError` with
ANY `error_code` is caught and logged (`E0000006` merely gets an extra
warning), a non-`OktaError` propagates — and finally
`_cleanup_okta_organizations` runs the `okta_import_cleanup.json` job with
`UPDATE_TAG = config.update_tag`.  The result is the list of stage
invocations performed and the exception the run raised, if any. -/
def start_okta_ingestion (config : OktaConfig) (out : StageOutcomes) :
    List OktaEvent × Option RunError :=
  if oktaApiKeyMissing config then ([], none)
  else
    match runStagesFrom (preStages config out) with
    | (evs, some e) => (evs, some e)
    | (evs, none) =>
      match out.roles with
      | StageOutcome.fatalError =>
        (evs ++ [OktaEvent.syncRoles config.okta_org_id config.update_tag],
          some RunError.fatal)
      | StageOutcome.success =>
        (evs ++ [OktaEvent.syncRoles config.okta_org_id config.update_tag,
          OktaEvent.cleanupOrganizations "okta_import_cleanup.json"
            config.update_tag config.okta_org_id], none)
      | StageOutcome.oktaError _ =>
        (evs ++ [OktaEvent.syncRoles config.okta_org_id config.update_tag,
          OktaEvent.cleanupOrganizations "okta_import_cleanup.json"
            config.update_tag config.okta_org_id], none)

theorem runStagesFrom_none_iff (l : List (OktaEvent × StageOutcome)) :
    (runStagesFrom l).2 = none ↔ ∀ x ∈ l, x.2 = StageOutcome.success := by
  induction l with
  | nil => simp [runStagesFrom]
  | cons a rest ih =>
    obtain ⟨ev, o⟩ := a
    cases o <;> simp [runStagesFrom, ih]

theorem runStagesFrom_all_success (l : List (OktaEvent × StageOutcome))
    (h : ∀ x ∈ l, x.2 = StageOutcome.success) :
    runStagesFrom l = (l.map Prod.fst, none) := by
  induction l with
  | nil => rfl
  | cons a rest ih =>
    obtain ⟨ev, o⟩ := a
    have ho : o = StageOutcome.success := h (ev, o) (List.mem_cons_self _ _)
    subst ho
    have hrest := ih fun x hx => h x (List.mem_cons_of_mem _ hx)
    simp [runStagesFrom, hrest]

theorem runStagesFrom_events_sub (l : List (OktaEvent × StageOutcome)) :
    ∀ x ∈ (runStagesFrom l).1, x ∈ l.map Prod.fst := by
  induction l with
  | nil => intro x hx; simp [runStagesFrom] at hx
  | cons a rest ih =>
    obtain ⟨ev, o⟩ := a
    intro x hx
    cases o with
    | success =>
      simp only [runStagesFrom, List.mem_cons] at hx
      rw [List.map_cons]
      rcases hx with h | h
      · exact h ▸ List.mem_cons_self _ _
      · exact List.mem_cons_of_mem _ (ih x h)
    | oktaError c =>
      simp only [runStagesFrom, List.mem_singleton] at hx
      simp [hx]
    | fatalError =>
      simp only [runStagesFrom, List.mem_singleton] at hx
      simp [hx]

theorem preStages_tag (config : OktaConfig) (out : StageOutcomes) :
    ∀ ev ∈ (preStages config out).map Prod.fst, eventTag ev = config.update_tag := by
  intro ev hev
  simp only [preStages, List.map_cons, List.map_nil, List.mem_cons,
    List.not_mem_nil, or_false] at hev
  rcases hev with h | h | h | h | h | h | h <;> subst h <;> rfl

/-- **C4** Resource Client error triage for bucket listing: an `HttpError`
classified `forbidden` or `invalid` makes `get_gcp_buckets` return the
empty result `{}` instead of raising, while every other classified reason
(e.g. a quota-exceeded error) propagates to the caller. -/
theorem get_gcp_buckets_error_triage (reason project_id : String) :
    ((reason = "forbidden" ∨ reason = "invalid") →
      get_gcp_buckets (Fetch.err reason) project_id = Except.ok { items := none }) ∧
    (reason ≠ "forbidden" → reason ≠ "invalid" →
      get_gcp_buckets (Fetch.err reason) project_id = Except.error reason) := by
  constructor
  · rintro (h | h) <;> subst h <;> rfl
  · intro h1 h2
    simp [get_gcp_buckets, h1, h2]

/-- **C5** Resource Client error triage for the IAM policy fetch: an
`HttpError` classified `notFound` or `forbidden` makes
`get_gcp_bucket_iam_policy` return the empty result `None` instead of
raising, while every other classified reason propagates to the caller. -/
theorem get_gcp_bucket_iam_policy_error_triage (reason bucket : String) :
    ((reason = "notFound" ∨ reason = "forbidden") →
      get_gcp_bucket_iam_policy (Fetch.err reason) bucket = Except.ok none) ∧
    (reason ≠ "notFound" → reason ≠ "forbidden" →
      get_gcp_bucket_iam_policy (Fetch.err reason) bucket = Except.error reason) := by
  constructor
  · rintro (h | h) <;> subst h <;> rfl
  · intro h1 h2
    simp [get_gcp_bucket_iam_policy, h1, h2]

/-- A well-formed IAM policy response with one role/member binding. -/
def iamResEx : IamPolicyRes where
  resourceId := "projects/_/buckets/b1"
  bindings := [("roles/storage.admin", ["user:alice@example.com"])]

/-- **C6** (failing half): `transform_gcp_bucket_iam_policy` applied to a
well-formed policy response carrying one binding returns `None` — the
Python body has no `return` statement — instead of the documented
one-record-per-binding list, so the transform-contract claim fails on this
function. -/
theorem transform_gcp_bucket_iam_policy_returns_none :
    transform_gcp_bucket_iam_policy iamResEx = none := rfl

/-- **C7** Transformer default-filling: a response whose item lacks any of
the optional keys still transforms without failing (the Lean embedding is
total, as is the Python loop, which reads every optional key with `.get`),
and each absent optional key yields the defined default (`None`, or the
empty list for `labels`) in the output record, which structurally carries
every normalized key. -/
theorem transform_gcp_buckets_defaults (b : RawBucket) :
    transform_gcp_buckets { items := some [b] } = [transformBucketItem b] ∧
    (b.etag = none → (transformBucketItem b).etag = none) ∧
    (b.iamConfiguration = none → (transformBucketItem b).iam_config_bucket_policy_only = none) ∧
    (b.labels = none → (transformBucketItem b).labels = []) ∧
    (b.owner = none → (transformBucketItem b).owner_entity = none ∧
      (transformBucketItem b).owner_entity_id = none) ∧
    (b.kind = none → (transformBucketItem b).kind = none) ∧
    (b.location = none → (transformBucketItem b).location = none) ∧
    (b.locationType = none → (transformBucketItem b).location_type = none) ∧
    (b.metageneration = none → (transformBucketItem b).meta_generation = none) ∧
    (b.selfLink = none → (transformBucketItem b).self_link = none) ∧
    (b.storageClass = none → (transformBucketItem b).storage_class = none) ∧
    (b.timeCreated = none → (transformBucketItem b).time_created = none) ∧
    (b.updated = none → (transformBucketItem b).updated = none) ∧
    (b.versioning = none → (transformBucketItem b).versioning_enabled = none) ∧
    (b.defaultEventBasedHold = none → (transformBucketItem b).default_event_based_hold = none) ∧
    (b.retentionPolicy = none → (transformBucketItem b).retention_period = none) ∧
    (b.encryption = none → (transformBucketItem b).default_kms_key_name = none) ∧
    (b.logging = none → (transformBucketItem b).log_bucket = none) ∧
    (b.billing = none → (transformBucketItem b).requester_pays = none) := by
  refine ⟨rfl, ?_, ?_, ?_, ?_, ?_, ?_, ?_, ?_, ?_, ?_, ?_, ?_, ?_, ?_, ?_, ?_, ?_, ?_⟩ <;>
    intro h <;> simp [transformBucketItem, h]

/-- **C10** Soft-failed fetch still completes the pipeline: with a fetch
that fails `forbidden` (or `invalid`), `get_gcp_buckets` yields `{}`,
`transform_gcp_buckets` yields the empty list, `load_gcp_buckets` writes
nothing, and `sync_gcp_buckets` completes normally, returning the graph
unchanged and still invoking the cleanup job. -/
theorem sync_gcp_buckets_soft_fail_completes (project_id : String)
    (tag now : Nat) (cjp : CommonJobParameters) (g : Graph) :
    transform_gcp_buckets { items := none } = [] ∧
    sync_gcp_buckets (Fetch.err "forbidden") project_id tag now cjp g =
      Except.ok (g, { jobName := "gcp_storage_bucket_cleanup.json", params := cjp }) ∧
    sync_gcp_buckets (Fetch.err "invalid") project_id tag now cjp g =
      Except.ok (g, { jobName := "gcp_storage_bucket_cleanup.json", params := cjp }) :=
  ⟨rfl, rfl, rfl⟩

theorem preStages_success_iff (config : OktaConfig) (out : StageOutcomes) :
    (∀ x ∈ preStages config out, x.2 = StageOutcome.success) ↔
      (out.organization = StageOutcome.success ∧ out.users = StageOutcome.success ∧
       out.groups = StageOutcome.success ∧ out.applications = StageOutcome.success ∧
       out.factors = StageOutcome.success ∧ out.origins = StageOutcome.success ∧
       out.awssaml = StageOutcome.success) := by
  simp [preStages]

theorem isCleanup_pre_false (config : OktaConfig) (out : StageOutcomes) :
    ∀ ev ∈ (preStages config out).map Prod.fst, isCleanup ev = false := by
  intro ev hev
  simp only [preStages, List.map_cons, List.map_nil, List.mem_cons,
    List.not_mem_nil, or_false] at hev
  rcases hev with h | h | h | h | h | h | h <;> subst h <;> rfl

/-- **C3** Single-tag-per-run invariant.  GCP: when the caller supplies
`common_job_parameters` whose `UPDATE_TAG` equals the run's
`gcp_update_tag` (the two are separate arguments of `sync_gcp_buckets`;
the code threads both through unchanged), every node and edge the load step
touches carries `lastupdated = tag` and the cleanup job is invoked with
that same `UPDATE_TAG`.  Okta: every stage invocation of
`start_okta_ingestion`, including the cleanup job's `UPDATE_TAG`, carries
`config.update_tag`. -/
theorem single_update_tag_per_run (storage : Fetch StorageRes)
    (project_id : String) (tag now : Nat) (cjp : CommonJobParameters)
    (g g2 : Graph) (cc : CleanupCall) (config : OktaConfig)
    (out : StageOutcomes)
    (hc : cjp.UPDATE_TAG = tag)
    (hs : sync_gcp_buckets storage project_id tag now cjp g = Except.ok (g2, cc)) :
    (cc.jobName = "gcp_storage_bucket_cleanup.json" ∧ cc.params.UPDATE_TAG = tag) ∧
    (∀ k, g2.buckets k = g.buckets k ∨
      ∃ n, g2.buckets k = some n ∧ n.lastupdated = tag) ∧
    (∀ k, g2.projects k = g.projects k ∨
      ∃ p, g2.projects k = some p ∧ p.lastupdated = tag) ∧
    (∀ k, g2.edges k = g.edges k ∨
      ∃ e, g2.edges k = some e ∧ e.lastupdated = tag) ∧
    (∀ ev ∈ (start_okta_ingestion config out).1, eventTag ev = config.update_tag) := by
  cases hg : get_gcp_buckets storage project_id with
  | error e => simp [sync_gcp_buckets, hg] at hs
  | ok res =>
    simp only [sync_gcp_buckets, hg, Except.ok.injEq, Prod.mk.injEq] at hs
    obtain ⟨hg2, hcc⟩ := hs
    subst hg2
    subst hcc
    refine ⟨⟨rfl, hc⟩, ?_, ?_, ?_, ?_⟩
    · intro k
      rw [load_buckets_char tag now]
      cases hlw : lastWith (fun r => r.id = k) (transform_gcp_buckets res) with
      | none => exact Or.inl rfl
      | some r => exact Or.inr ⟨_, rfl, rfl⟩
    · intro k
      rw [load_projects_char tag now]
      cases hlw : lastWith (fun r => r.project_number = k) (transform_gcp_buckets res) with
      | none => exact Or.inl rfl
      | some r => exact Or.inr ⟨_, rfl, rfl⟩
    · intro k
      rw [load_edges_char tag now]
      cases hlw : lastWith (fun r => (r.project_number, r.id) = k)
          (transform_gcp_buckets res) with
      | none => exact Or.inl rfl
      | some r => exact Or.inr ⟨_, rfl, rfl⟩
    · intro ev hev
      cases hk : oktaApiKeyMissing config with
      | true => simp [start_okta_ingestion, hk] at hev
      | false =>
        rcases hrs : runStagesFrom (preStages config out) with ⟨evs, err⟩
        have hsub : ∀ x ∈ evs, x ∈ (preStages config out).map Prod.fst := by
          intro x hx
          refine runStagesFrom_events_sub _ x ?_
          rw [hrs]
          exact hx
        cases err with
        | some e =>
          simp only [start_okta_ingestion, hk, Bool.false_eq_true, if_false, hrs] at hev
          exact preStages_tag config out ev (hsub ev hev)
        | none =>
          cases hr : out.roles with
          | fatalError =>
            simp only [start_okta_ingestion, hk, Bool.false_eq_true, if_false, hrs,
              hr, List.mem_append, List.mem_singleton] at hev
            rcases hev with h | h
            · exact preStages_tag config out ev (hsub ev h)
            · subst h; rfl
          | success =>
            simp only [start_okta_ingestion, hk, Bool.false_eq_true, if_false, hrs,
              hr, List.mem_append, List.mem_cons, List.not_mem_nil, or_false] at hev
            rcases hev with h | h | h
            · exact preStages_tag config out ev (hsub ev h)
            · subst h; rfl
            · subst h; rfl
          | oktaError c =>
            simp only [start_okta_ingestion, hk, Bool.false_eq_true, if_false, hrs,
              hr, List.mem_append, List.mem_cons, List.not_mem_nil, or_false] at hev
            rcases hev with h | h | h
            · exact preStages_tag config out ev (hsub ev h)
            · subst h; rfl
            · subst h; rfl

/-- All seven unguarded stages of the Okta run end normally. -/
def preOutcomesOk (out : StageOutcomes) : Prop :=
  out.organization = StageOutcome.success ∧ out.users = StageOutcome.success ∧
  out.groups = StageOutcome.success ∧ out.applications = StageOutcome.success ∧
  out.factors = StageOutcome.success ∧ out.origins = StageOutcome.success ∧
  out.awssaml = StageOutcome.success

/-- A configuration with usable credentials. -/
def cfgEx : OktaConfig where
  okta_api_key := some "token"
  okta_org_id := "org1"
  okta_saml_role_regex := "^aws\x5c#"
  update_tag := 100

/-- Every stage call ends normally. -/
def outAllOkEx : StageOutcomes where
  organization := StageOutcome.success
  users := StageOutcome.success
  groups := StageOutcome.success
  applications := StageOutcome.success
  factors := StageOutcome.success
  origins := StageOutcome.success
  awssaml := StageOutcome.success
  roles := StageOutcome.success

/-- The roles stage raises an `OktaError` whose `error_code` is NOT the
permission code `E0000006`. -/
def outSoftRolesEx : StageOutcomes where
  organization := StageOutcome.success
  users := StageOutcome.success
  groups := StageOutcome.success
  applications := StageOutcome.success
  factors := StageOutcome.success
  origins := StageOutcome.success
  awssaml := StageOutcome.success
  roles := StageOutcome.oktaError "E0000001"

/-- **C8 counterexample** The claim says a roles-stage failure NOT
classified as permission-insufficient (`E0000006`) is fatal and aborts the
remaining sequence; but with `roles` raising an `OktaError` coded
`E0000001`, `start_okta_ingestion` raises nothing and the cleanup job still
executes — the `except OktaError` handler catches every `OktaError`, not
only the `E0000006` classification. -/
theorem okta_unclassified_roles_error_not_fatal :
    outSoftRolesEx.roles = StageOutcome.oktaError "E0000001" ∧
    "E0000001" ≠ "E0000006" ∧
    (start_okta_ingestion cfgEx outSoftRolesEx).2 = none ∧
    (start_okta_ingestion cfgEx outSoftRolesEx).1.any isCleanup = true := by
  decide

/-- **C8 (amended)** Okta orchestrator step-failure policy: (run raises
nothing ⟺ cleanup executes ⟺ all seven unguarded stages end normally and
the roles stage does not raise a non-`OktaError`); in particular ANY
`OktaError` from the roles stage — whatever its `error_code`, `E0000006`
merely adding a second warning — is caught and the run proceeds to the
cleanup job, while a failure of an unguarded stage (or a non-`OktaError`
from roles) aborts the remaining sequence, the events of the already
completed stages being retained, not rolled back. -/
theorem okta_step_failure_policy (config : OktaConfig) (out : StageOutcomes)
    (hk : oktaApiKeyMissing config = false) :
    ((start_okta_ingestion config out).2 = none ↔
      (preOutcomesOk out ∧ out.roles ≠ StageOutcome.fatalError)) ∧
    ((start_okta_ingestion config out).1.any isCleanup = true ↔
      (preOutcomesOk out ∧ out.roles ≠ StageOutcome.fatalError)) ∧
    (∀ code, out.roles = StageOutcome.oktaError code → preOutcomesOk out →
      (start_okta_ingestion config out).2 = none ∧
      (start_okta_ingestion config out).1.any isCleanup = true) ∧
    (out.organization = StageOutcome.success →
      OktaEvent.createOrganization config.okta_org_id config.update_tag ∈
        (start_okta_ingestion config out).1) := by
  by_cases hpre : preOutcomesOk out
  · have hall : ∀ x ∈ preStages config out, x.2 = StageOutcome.success :=
      (preStages_success_iff config out).mpr hpre
    have hrun : runStagesFrom (preStages config out) =
        ((preStages config out).map Prod.fst, none) :=
      runStagesFrom_all_success _ hall
    cases hr : out.roles with
    | success =>
      refine ⟨?_, ?_, ?_, ?_⟩
      · simp [start_okta_ingestion, hk, hrun, hr, hpre]
      · simp [start_okta_ingestion, hk, hrun, hr, hpre, isCleanup, List.any_append]
      · intro code hcode
        cases hcode
      · intro _
        simp only [start_okta_ingestion, hk, Bool.false_eq_true, if_false, hrun]
        simp [preStages, hr, List.mem_append]
    | oktaError c =>
      refine ⟨?_, ?_, ?_, ?_⟩
      · simp [start_okta_ingestion, hk, hrun, hr, hpre]
      · simp [start_okta_ingestion, hk, hrun, hr, hpre, isCleanup, List.any_append]
      · intro code hcode hpre2
        constructor
        · simp [start_okta_ingestion, hk, hrun, hr]
        · simp [start_okta_ingestion, hk, hrun, hr, isCleanup, List.any_append]
      · intro _
        simp only [start_okta_ingestion, hk, Bool.false_eq_true, if_false, hrun]
        simp [preStages, hr, List.mem_append]
    | fatalError =>
      have hanyfalse : ((preStages config out).map Prod.fst).any isCleanup = false := by
        refine List.any_eq_false.mpr ?_
        intro x hx
        simp [isCleanup_pre_false config out x hx]
      refine ⟨?_, ?_, ?_, ?_⟩
      · simp [start_okta_ingestion, hk, hrun, hr]
      · simp [start_okta_ingestion, hk, hrun, hr, hanyfalse, isCleanup, List.any_append]
      · intro code hcode
        cases hcode
      · intro _
        simp only [start_okta_ingestion, hk, Bool.false_eq_true, if_false, hrun]
        simp [preStages, hr, List.mem_append]
  · have hnone : (runStagesFrom (preStages config out)).2 ≠ none := by
      intro h
      exact hpre ((preStages_success_iff config out).mp ((runStagesFrom_none_iff _).mp h))
    rcases hrs : runStagesFrom (preStages config out) with ⟨evs, err⟩
    cases err with
    | none =>
      rw [hrs] at hnone
      simp at hnone
    | some e =>
      have htrace : start_okta_ingestion config out = (evs, some e) := by
        simp [start_okta_ingestion, hk, hrs]
      have hanyfalse : evs.any isCleanup = false := by
        refine List.any_eq_false.mpr ?_
        intro x hx
        have hx2 : x ∈ (preStages config out).map Prod.fst := by
          refine runStagesFrom_events_sub _ x ?_
          rw [hrs]
          exact hx
        simp [isCleanup_pre_false config out x hx2]
      refine ⟨?_, ?_, ?_, ?_⟩
      · rw [htrace]
        simp [hpre]
      · rw [htrace]
        simp [hanyfalse, hpre]
      · intro code hcode hpre2
        exact absurd hpre2 hpre
      · intro horg
        have hmem : OktaEvent.createOrganization config.okta_org_id config.update_tag ∈
            (runStagesFrom (preStages config out)).1 := by
          simp only [preStages, horg, runStagesFrom]
          exact List.mem_cons_self _ _
        rw [hrs] at hmem
        rw [htrace]
        exact hmem

/-- Witness for C8 (amended) at a concrete configuration with an
all-success run: the run raises nothing, the cleanup job executes, and the
organization stage's invocation is retained in the trace. -/
theorem okta_step_failure_policy_witness :
    (start_okta_ingestion cfgEx outAllOkEx).2 = none ∧
    (start_okta_ingestion cfgEx outAllOkEx).1.any isCleanup = true ∧
    OktaEvent.createOrganization "org1" 100 ∈ (start_okta_ingestion cfgEx outAllOkEx).1 := by
  have h := okta_step_failure_policy cfgEx outAllOkEx (by decide)
  exact ⟨h.1.mpr ⟨⟨rfl, rfl, rfl, rfl, rfl, rfl, rfl⟩, by decide⟩,
    h.2.1.mpr ⟨⟨rfl, rfl, rfl, rfl, rfl, rfl, rfl⟩, by decide⟩,
    h.2.2.2 rfl⟩

/-- **C9** Missing-credentials no-op: with an absent/falsy `okta_api_key`,
`start_okta_ingestion` returns at once after a warning — no stage is
invoked, the cleanup job does not run, and no error is raised, so the
graph is left entirely unchanged. -/
theorem okta_missing_credentials_noop (config : OktaConfig)
    (out : StageOutcomes) (hk : oktaApiKeyMissing config = true) :
    start_okta_ingestion config out = ([], none) := by
  simp [start_okta_ingestion, hk]

/-- A configuration with no Okta credentials. -/
def cfgNoKeyEx : OktaConfig where
  okta_api_key := none
  okta_org_id := "org1"
  okta_saml_role_regex := "^aws\x5c#"
  update_tag := 100

/-- Witness for C9: the concrete credential-less run performs no stage
invocation and raises nothing. -/
theorem okta_missing_credentials_noop_witness :
    start_okta_ingestion cfgNoKeyEx outAllOkEx = ([], none) :=
  okta_missing_credentials_noop cfgNoKeyEx outAllOkEx rfl

/-- Witness for C3: a concrete successful sync at tag 100 invokes the
bucket cleanup job with `UPDATE_TAG = 100`, and a concrete Okta stage
invocation of the all-success run carries tag 100. -/
theorem single_update_tag_per_run_witness :
    (cleanup_gcp_buckets { UPDATE_TAG := 100 }).jobName =
      "gcp_storage_bucket_cleanup.json" ∧
    (cleanup_gcp_buckets { UPDATE_TAG := 100 }).params.UPDATE_TAG = 100 ∧
    eventTag (OktaEvent.syncUsers "org1" 100) = 100 := by
  have h := single_update_tag_per_run (Fetch.ok { items := none }) "p1" 100 7
    { UPDATE_TAG := 100 } Graph.empty Graph.empty
    (cleanup_gcp_buckets { UPDATE_TAG := 100 }) cfgEx outAllOkEx rfl rfl
  exact ⟨h.1.1, h.1.2, h.2.2.2.2 (OktaEvent.syncUsers "org1" 100) (by decide)⟩
